import Mathlib

set_option maxHeartbeats 1000000
set_option maxRecDepth 8000

namespace Epd2in7

/-- Modelled from the spec: the display color type (crate::color, not under src/).
Spec §3: the background color is one of two values, a white/clear state and a
black/set state; §8 refers to a color's encoded byte value. The concrete byte
encoding is fixed but its values are not used by any claim. -/
inductive Color
  | Black
  | White
deriving DecidableEq, Repr

/-- Modelled from the spec: the byte encoding of a color (crate::color, not under
src/); the white/clear state encodes as the all-clear-bits byte pattern. -/
def Color.get_byte_value : Color → Nat
  | .White => 0xff
  | .Black => 0x00

/-- Width of the display (src/epd2in7/mod.rs). -/
def WIDTH : Nat := 176

/-- Height of the display (src/epd2in7/mod.rs). -/
def HEIGHT : Nat := 264

/-- Default background color (src/epd2in7/mod.rs). -/
def DEFAULT_BACKGROUND_COLOR : Color := Color.White

/-- Busy-line polarity constant (src/epd2in7/mod.rs). -/
def IS_BUSY_LOW : Bool := true

/-- Modelled from the spec: the refresh-rate selector type (crate::traits::RefreshLut,
not under src/); §4.4 calls it a refresh-rate selector accepted for interface
symmetry. Its two variants never influence any behaviour in this driver. -/
inductive RefreshLut
  | Full
  | Quick
deriving DecidableEq, Repr

/-- The command set used by src/epd2in7/mod.rs (the byte code of each command lives
in src/epd2in7/command.rs, which is not under src/; commands are kept symbolic here —
distinct variants correspond to distinct command codes per the spec §6, which says
command codes are bit-exact contracts of the vendor register map). -/
inductive Command
  | PowerSetting
  | BoosterSoftStart
  | PowerOptimization
  | PartialDisplayRefresh
  | PowerOn
  | PanelSetting
  | PllControl
  | VcmDcSetting
  | VcomAndDataIntervalSetting
  | PowerOff
  | DeepSleep
  | DataStartTransmission1
  | DataStartTransmission2
  | PartialDataStartTransmission1
  | DisplayRefresh
  | GetStatus
  | LutForVcom
  | LutWhiteToWhite
  | LutBlackToWhite
  | LutWhiteToBlack
  | LutBlackToBlack
deriving DecidableEq, Repr

/-- Modelled from the spec: LUT table for VCOM (src/epd2in7/constants.rs, not under
src/). Spec §3/§4.4 fix that the five LUTs are fixed constant byte sequences but do
not give their byte values; placeholder contents are used and no theorem depends on
them, only on the named constants themselves. -/
def LUT_VCOM_DC : List Nat := List.replicate 44 0

/-- Modelled from the spec: white-to-white LUT (src/epd2in7/constants.rs, not under
src/); placeholder contents, see LUT_VCOM_DC. -/
def LUT_WW : List Nat := List.replicate 42 0

/-- Modelled from the spec: black-to-white LUT (src/epd2in7/constants.rs, not under
src/); placeholder contents, see LUT_VCOM_DC. -/
def LUT_BW : List Nat := List.replicate 42 0

/-- Modelled from the spec: black-to-black LUT (src/epd2in7/constants.rs, not under
src/); placeholder contents, see LUT_VCOM_DC. -/
def LUT_BB : List Nat := List.replicate 42 0

/-- Modelled from the spec: white-to-black LUT (src/epd2in7/constants.rs, not under
src/); placeholder contents, see LUT_VCOM_DC. -/
def LUT_WB : List Nat := List.replicate 42 0

/-- One observable event of the driver's interaction with the hardware: a command
byte sent over the bus (data/command line in command state), a data byte sent over
the bus (data state), a hardware reset pulse with its delay parameter, or one
busy-line polling loop (a read of the busy input, not bus traffic). -/
inductive BusEvent
  | command (c : Command)
  | data (b : Nat)
  | resetPulse (delayUnits : Nat)
  | busyPoll
deriving DecidableEq, Repr

/-- The state threaded through the embedded driver: the controller's cached
background color field (the only mutable field of Epd2in7), plus the mock
environment: the recorded event trace, the count of SPI write transactions
performed, an optional index of the write transaction at which the bus reports
an error, and the current level of the busy input pin. -/
structure EpdState where
  color : Color
  trace : List BusEvent
  writesDone : Nat
  failAt : Option Nat
  busyPin : Bool
deriving DecidableEq, Repr

/-- The effect monad of the embedded driver: explicit state passing plus a bus-error
short circuit. The state is returned even on error, matching Rust where the
driver struct outlives an Err return. -/
abbrev M (α : Type) : Type := EpdState → Except Unit α × EpdState

/-- Pure computation in M. -/
def M.pure (a : α) : M α := fun s => (Except.ok a, s)

/-- Sequencing in M: a bus error short-circuits the continuation, as the question
mark operator does in the source. -/
def M.bind (x : M α) (f : α → M β) : M β := fun s =>
  match x s with
  | (Except.ok a, s1) => f a s1
  | (Except.error e, s1) => (Except.error e, s1)

instance : Monad M where
  pure := M.pure
  bind := M.bind

/-- One SPI write transaction: if the error schedule marks this transaction as
failing, a bus error is reported and nothing is emitted; otherwise the given
events are appended to the trace. -/
def spiWrite (evs : List BusEvent) : M Unit := fun s =>
  if s.failAt = some s.writesDone then
    (Except.error (), { s with writesDone := s.writesDone + 1 })
  else
    (Except.ok (), { s with trace := s.trace ++ evs, writesDone := s.writesDone + 1 })

namespace DisplayInterface

/-- Modelled from the spec: send_command (§4.1, crate::interface::DisplayInterface,
not under src/): put the data/command line in command state and transmit one
command byte in one bus write. -/
def cmd (c : Command) : M Unit := spiWrite [BusEvent.command c]

/-- Modelled from the spec: send_data (§4.1): put the data/command line in data
state and transmit the byte sequence in one bus write. -/
def data (bytes : List Nat) : M Unit := spiWrite (bytes.map BusEvent.data)

/-- Modelled from the spec: send_command_with_data (§4.1): the composition of the
two primitives above, command byte first, then the payload as data. -/
def cmd_with_data (c : Command) (bytes : List Nat) : M Unit := do
  cmd c
  data bytes

/-- Modelled from the spec: send_data_repeated (§4.1): writes the same data byte
count times (modelled as one bus transaction carrying the repeated bytes). -/
def data_x_times (val : Nat) (n : Nat) : M Unit :=
  spiWrite (List.replicate n (BusEvent.data val))

/-- Modelled from the spec: reset (§4.1): drive the reset line low then high with
bracketing delays; infallible, no bus traffic. -/
def reset (delayUnits : Nat) : M Unit := fun s =>
  (Except.ok (), { s with trace := s.trace ++ [BusEvent.resetPulse delayUnits] })

/-- Modelled from the spec: wait_busy (§4.1): poll the busy line until it leaves
the busy state; a pin-polling loop, infallible and no bus traffic, recorded as
one busyPoll event. -/
def wait_until_idle (_busy_low : Bool) : M Unit := fun s =>
  (Except.ok (), { s with trace := s.trace ++ [BusEvent.busyPoll] })

/-- Modelled from the spec: is_busy (§6): a non-blocking read of the busy input,
interpreted through the panel's active-low polarity flag. -/
def is_busy (busy_low : Bool) : M Bool := fun s =>
  (Except.ok (if busy_low then !s.busyPin else s.busyPin), s)

end DisplayInterface

/-- Modelled from the spec: the §4.1 busy-poll loop viewed on a stream of busy-line
samples (true = busy): returns the number of polls performed before the first
ready sample, none if the stream is exhausted while still busy. Used to express
that the poll terminates exactly when the busy line reports ready. -/
def pollBusy : List Bool → Option Nat
  | [] => none
  | b :: rest => if b then (pollBusy rest).map (· + 1) else some 0

/-- Epd2in7::wait_until_idle (src/epd2in7/mod.rs lines 272-276): transmit the
GetStatus command byte, then poll the busy line until idle. -/
def wait_until_idle : M Unit := do
  DisplayInterface.cmd Command.GetStatus
  DisplayInterface.wait_until_idle IS_BUSY_LOW

/-- WaveshareDisplay::set_lut (src/epd2in7/mod.rs lines 244-256): writes the five
fixed LUT tables; the refresh-rate selector argument is ignored. -/
def set_lut (_refresh_rate : Option RefreshLut) : M Unit := do
  DisplayInterface.cmd_with_data Command.LutForVcom LUT_VCOM_DC
  DisplayInterface.cmd_with_data Command.LutWhiteToWhite LUT_WW
  DisplayInterface.cmd_with_data Command.LutBlackToWhite LUT_BW
  DisplayInterface.cmd_with_data Command.LutWhiteToBlack LUT_BB
  DisplayInterface.cmd_with_data Command.LutBlackToBlack LUT_WB

/-- InternalWiAdditions::init (src/epd2in7/mod.rs lines 55-109). -/
def init : M Unit := do
  DisplayInterface.reset 2
  DisplayInterface.cmd_with_data Command.PowerSetting [0x03, 0x00, 0x2b, 0x2b, 0x09]
  DisplayInterface.cmd_with_data Command.BoosterSoftStart [0x07, 0x07, 0x17]
  DisplayInterface.cmd_with_data Command.PowerOptimization [0x60, 0xa5]
  DisplayInterface.cmd_with_data Command.PowerOptimization [0x89, 0xa5]
  DisplayInterface.cmd_with_data Command.PowerOptimization [0x90, 0x00]
  DisplayInterface.cmd_with_data Command.PowerOptimization [0x93, 0x2a]
  DisplayInterface.cmd_with_data Command.PowerOptimization [0xA0, 0xA5]
  DisplayInterface.cmd_with_data Command.PowerOptimization [0xA1, 0x00]
  DisplayInterface.cmd_with_data Command.PowerOptimization [0x73, 0x41]
  DisplayInterface.cmd_with_data Command.PartialDisplayRefresh [0x00]
  DisplayInterface.cmd Command.PowerOn
  wait_until_idle
  DisplayInterface.cmd_with_data Command.PanelSetting [0xaf]
  DisplayInterface.cmd_with_data Command.PllControl [0x3a]
  DisplayInterface.cmd_with_data Command.VcmDcSetting [0x12]
  set_lut none

/-- WaveshareDisplay::new (src/epd2in7/mod.rs lines 123-139): construct the struct
with the default background color, then run init. -/
def new : M Unit := fun s =>
  init { s with color := DEFAULT_BACKGROUND_COLOR }

/-- WaveshareDisplay::wake_up (src/epd2in7/mod.rs lines 141-143): exactly init. -/
def wake_up : M Unit := init

/-- WaveshareDisplay::sleep (src/epd2in7/mod.rs lines 145-155). -/
def sleep : M Unit := do
  wait_until_idle
  DisplayInterface.cmd_with_data Command.VcomAndDataIntervalSetting [0xf7]
  DisplayInterface.cmd Command.PowerOff
  wait_until_idle
  DisplayInterface.cmd_with_data Command.DeepSleep [0xA5]

/-- WaveshareDisplay::update_frame (src/epd2in7/mod.rs lines 157-165). -/
def update_frame (buffer : List Nat) : M Unit :=
  DisplayInterface.cmd_with_data Command.DataStartTransmission2 buffer

/-- WaveshareDisplay::update_partial_frame (src/epd2in7/mod.rs lines 167-194).
Coordinates are u32 values; the as-u8 casts of the source are the mod-256
truncations below. -/
def update_partial_frame (buffer : List Nat) (x y width height : Nat) : M Unit := do
  DisplayInterface.cmd Command.PartialDataStartTransmission1
  DisplayInterface.data [(x >>> 8) % 256]
  DisplayInterface.data [(x &&& 0xf8) % 256]
  DisplayInterface.data [(y >>> 8) % 256]
  DisplayInterface.data [(y &&& 0xff) % 256]
  DisplayInterface.data [(width >>> 8) % 256]
  DisplayInterface.data [(width &&& 0xf8) % 256]
  DisplayInterface.data [(height >>> 8) % 256]
  DisplayInterface.data [(height &&& 0xff) % 256]
  DisplayInterface.data buffer
  DisplayInterface.cmd Command.DisplayRefresh
  wait_until_idle

/-- WaveshareDisplay::display_frame (src/epd2in7/mod.rs lines 196-200). -/
def display_frame : M Unit := do
  DisplayInterface.cmd Command.DisplayRefresh
  wait_until_idle

/-- WaveshareDisplay::update_and_display_frame (src/epd2in7/mod.rs lines 202-211). -/
def update_and_display_frame (buffer : List Nat) : M Unit := do
  update_frame buffer
  display_frame

/-- WaveshareDisplay::background_color accessor (src/epd2in7/mod.rs lines 232-234). -/
def background_color : M Color := fun s => (Except.ok s.color, s)

/-- WaveshareDisplay::clear_frame (src/epd2in7/mod.rs lines 213-226). -/
def clear_frame : M Unit := do
  let color ← background_color
  let color_value := color.get_byte_value
  DisplayInterface.cmd Command.DataStartTransmission1
  DisplayInterface.data_x_times color_value (WIDTH * HEIGHT / 8)
  DisplayInterface.cmd Command.DataStartTransmission2
  DisplayInterface.data_x_times color_value (WIDTH * HEIGHT / 8)

/-- WaveshareDisplay::set_background_color (src/epd2in7/mod.rs lines 228-230). -/
def set_background_color (color : Color) : M Unit := fun s =>
  (Except.ok (), { s with color := color })

/-- WaveshareDisplay::is_busy (src/epd2in7/mod.rs lines 258-260). -/
def is_busy : M Bool := DisplayInterface.is_busy IS_BUSY_LOW

/-- Epd2in7::display_partial_frame (src/epd2in7/mod.rs lines 278-298). -/
def display_partial_frame (x y width height : Nat) : M Unit := do
  DisplayInterface.cmd Command.PartialDisplayRefresh
  DisplayInterface.data [(x >>> 8) % 256]
  DisplayInterface.data [(x &&& 0xf8) % 256]
  DisplayInterface.data [(y >>> 8) % 256]
  DisplayInterface.data [(y &&& 0xff) % 256]
  DisplayInterface.data [(width >>> 8) % 256]
  DisplayInterface.data [(width &&& 0xf8) % 256]
  DisplayInterface.data [(height >>> 8) % 256]
  DisplayInterface.data [(height &&& 0xff) % 256]
  wait_until_idle

/-- Two wake_up calls in direct succession. -/
def wake_up_twice : M Unit := do
  wake_up
  wake_up

/-- The event trace of one controller wait_until_idle synchronization point:
the GetStatus command byte, then the busy poll. -/
def waitTrace : List BusEvent := [BusEvent.command Command.GetStatus, BusEvent.busyPoll]

/-- The event trace of set_lut: the five LUT writes. -/
def lutTrace : List BusEvent :=
  [BusEvent.command Command.LutForVcom] ++ LUT_VCOM_DC.map BusEvent.data
  ++ [BusEvent.command Command.LutWhiteToWhite] ++ LUT_WW.map BusEvent.data
  ++ [BusEvent.command Command.LutBlackToWhite] ++ LUT_BW.map BusEvent.data
  ++ [BusEvent.command Command.LutWhiteToBlack] ++ LUT_BB.map BusEvent.data
  ++ [BusEvent.command Command.LutBlackToBlack] ++ LUT_WB.map BusEvent.data

/-- The full event trace of init (and wake_up), step by step from the source. -/
def initTrace : List BusEvent :=
  [BusEvent.resetPulse 2]
  ++ [BusEvent.command Command.PowerSetting] ++ [0x03, 0x00, 0x2b, 0x2b, 0x09].map BusEvent.data
  ++ [BusEvent.command Command.BoosterSoftStart] ++ [0x07, 0x07, 0x17].map BusEvent.data
  ++ [BusEvent.command Command.PowerOptimization] ++ [0x60, 0xa5].map BusEvent.data
  ++ [BusEvent.command Command.PowerOptimization] ++ [0x89, 0xa5].map BusEvent.data
  ++ [BusEvent.command Command.PowerOptimization] ++ [0x90, 0x00].map BusEvent.data
  ++ [BusEvent.command Command.PowerOptimization] ++ [0x93, 0x2a].map BusEvent.data
  ++ [BusEvent.command Command.PowerOptimization] ++ [0xA0, 0xA5].map BusEvent.data
  ++ [BusEvent.command Command.PowerOptimization] ++ [0xA1, 0x00].map BusEvent.data
  ++ [BusEvent.command Command.PowerOptimization] ++ [0x73, 0x41].map BusEvent.data
  ++ [BusEvent.command Command.PartialDisplayRefresh] ++ [0x00].map BusEvent.data
  ++ [BusEvent.command Command.PowerOn]
  ++ waitTrace
  ++ [BusEvent.command Command.PanelSetting] ++ [0xaf].map BusEvent.data
  ++ [BusEvent.command Command.PllControl] ++ [0x3a].map BusEvent.data
  ++ [BusEvent.command Command.VcmDcSetting] ++ [0x12].map BusEvent.data
  ++ lutTrace

/-- The full event trace of sleep. -/
def sleepTrace : List BusEvent :=
  waitTrace
  ++ [BusEvent.command Command.VcomAndDataIntervalSetting] ++ [0xf7].map BusEvent.data
  ++ [BusEvent.command Command.PowerOff]
  ++ waitTrace
  ++ [BusEvent.command Command.DeepSleep] ++ [0xA5].map BusEvent.data

/-- The 8 geometry bytes both partial-frame operations emit, exactly as the source
computes them (the mod-256 is the as-u8 cast). -/
def partialHeader (x y width height : Nat) : List Nat :=
  [(x >>> 8) % 256, (x &&& 0xf8) % 256,
   (y >>> 8) % 256, (y &&& 0xff) % 256,
   (width >>> 8) % 256, (width &&& 0xf8) % 256,
   (height >>> 8) % 256, (height &&& 0xff) % 256]

/-- The full event trace of update_frame. -/
def updateFrameTrace (buffer : List Nat) : List BusEvent :=
  [BusEvent.command Command.DataStartTransmission2] ++ buffer.map BusEvent.data

/-- The full event trace of display_frame. -/
def displayFrameTrace : List BusEvent :=
  [BusEvent.command Command.DisplayRefresh] ++ waitTrace

/-- The full event trace of update_partial_frame. -/
def updatePartialTrace (buffer : List Nat) (x y width height : Nat) : List BusEvent :=
  [BusEvent.command Command.PartialDataStartTransmission1]
  ++ (partialHeader x y width height).map BusEvent.data
  ++ buffer.map BusEvent.data
  ++ [BusEvent.command Command.DisplayRefresh]
  ++ waitTrace

/-- The full event trace of display_partial_frame. -/
def displayPartialTrace (x y width height : Nat) : List BusEvent :=
  [BusEvent.command Command.PartialDisplayRefresh]
  ++ (partialHeader x y width height).map BusEvent.data
  ++ waitTrace

/-- The full event trace of clear_frame for a given encoded color byte. -/
def clearTrace (colorValue : Nat) : List BusEvent :=
  [BusEvent.command Command.DataStartTransmission1]
  ++ List.replicate (WIDTH * HEIGHT / 8) (BusEvent.data colorValue)
  ++ [BusEvent.command Command.DataStartTransmission2]
  ++ List.replicate (WIDTH * HEIGHT / 8) (BusEvent.data colorValue)

/-- Projection of an event to its data byte, none for non-data events. -/
def dataByteOf : BusEvent → Option Nat
  | .data b => some b
  | _ => none

/-- The sequence of data bytes in a trace. -/
def dataBytes (t : List BusEvent) : List Nat := t.filterMap dataByteOf

/-- Projection of an event to its command, none for non-command events. -/
def cmdOf : BusEvent → Option Command
  | .command c => some c
  | _ => none

/-- The sequence of command bytes in a trace. -/
def cmds (t : List BusEvent) : List Command := t.filterMap cmdOf

/-- Scan of the GetStatus-before-poll discipline: checks that every busyPoll event
in the list is immediately preceded by a GetStatus command byte, the first
argument being the event just before the list. -/
def goodPollsFrom (prev : BusEvent) : List BusEvent → Bool
  | [] => true
  | e :: rest =>
      (if e = BusEvent.busyPoll then decide (prev = BusEvent.command Command.GetStatus)
       else true)
      && goodPollsFrom e rest

/-- Every busyPoll in the trace is immediately preceded by a GetStatus command
byte (in particular a trace may not start with a busyPoll). -/
def goodPolls : List BusEvent → Bool
  | [] => true
  | BusEvent.busyPoll :: _ => false
  | e :: rest => goodPollsFrom e rest

/-- An action never changes the controller's cached background-color field, on
success as well as when it stops with a bus error (the state, hence the Rust
struct, survives an Err return). -/
def preservesColor {α : Type} (m : M α) : Prop :=
  ∀ s : EpdState, ((m s).2).color = s.color

/-- A fresh mock run state: default color, empty trace, no scheduled bus error,
busy pin idle. -/
def s0 : EpdState :=
  { color := Color.White, trace := [], writesDone := 0, failAt := none, busyPin := false }

/-- The all-zero full-frame buffer of the spec's end-to-end scenario. -/
def buf0 : List Nat := List.replicate 5808 0

theorem bind_apply {α β : Type} (x : M α) (f : α → M β) (s : EpdState) :
    (x >>= f) s = match x s with
      | (Except.ok a, s1) => f a s1
      | (Except.error e, s1) => (Except.error e, s1) := rfl

theorem spiWrite_ok (evs : List BusEvent) (s : EpdState) (h : s.failAt = none) :
    spiWrite evs s
      = (Except.ok (), { s with trace := s.trace ++ evs, writesDone := s.writesDone + 1 }) := by
  simp [spiWrite, h]

theorem set_lut_run (r : Option RefreshLut) (s : EpdState) (h : s.failAt = none) :
    set_lut r s
      = (Except.ok (), { s with trace := s.trace ++ lutTrace, writesDone := s.writesDone + 10 }) := by
  simp [set_lut, DisplayInterface.cmd_with_data, DisplayInterface.cmd,
        DisplayInterface.data, bind_apply, spiWrite_ok, h, lutTrace, List.append_assoc]

theorem init_run (s : EpdState) (h : s.failAt = none) :
    init s
      = (Except.ok (), { s with trace := s.trace ++ initTrace, writesDone := s.writesDone + 38 }) := by
  simp [init, wait_until_idle, DisplayInterface.cmd_with_data, DisplayInterface.cmd,
        DisplayInterface.data, DisplayInterface.wait_until_idle, DisplayInterface.reset,
        bind_apply, spiWrite_ok, set_lut_run, h, initTrace, waitTrace, lutTrace,
        List.append_assoc]

theorem wake_up_run (s : EpdState) (h : s.failAt = none) :
    wake_up s
      = (Except.ok (), { s with trace := s.trace ++ initTrace, writesDone := s.writesDone + 38 }) :=
  init_run s h

theorem new_run (s : EpdState) (h : s.failAt = none) :
    new s
      = (Except.ok (), { s with color := DEFAULT_BACKGROUND_COLOR,
                                trace := s.trace ++ initTrace,
                                writesDone := s.writesDone + 38 }) := by
  have h2 : ({ s with color := DEFAULT_BACKGROUND_COLOR } : EpdState).failAt = none := h
  simp [new, init_run _ h2]

theorem wake_up_twice_run (s : EpdState) (h : s.failAt = none) :
    wake_up_twice s
      = (Except.ok (), { s with trace := s.trace ++ initTrace ++ initTrace,
                                writesDone := s.writesDone + 76 }) := by
  have h2 : ({ s with trace := s.trace ++ initTrace, writesDone := s.writesDone + 38 } : EpdState).failAt = none := h
  simp [wake_up_twice, bind_apply, wake_up_run s h, wake_up_run _ h2, List.append_assoc]

theorem sleep_run (s : EpdState) (h : s.failAt = none) :
    sleep s
      = (Except.ok (), { s with trace := s.trace ++ sleepTrace, writesDone := s.writesDone + 7 }) := by
  simp [sleep, wait_until_idle, DisplayInterface.cmd_with_data, DisplayInterface.cmd,
        DisplayInterface.data, DisplayInterface.wait_until_idle, bind_apply, spiWrite_ok, h,
        sleepTrace, waitTrace, List.append_assoc]

theorem update_frame_run (buffer : List Nat) (s : EpdState) (h : s.failAt = none) :
    update_frame buffer s
      = (Except.ok (), { s with trace := s.trace ++ updateFrameTrace buffer,
                                writesDone := s.writesDone + 2 }) := by
  simp [update_frame, DisplayInterface.cmd_with_data, DisplayInterface.cmd,
        DisplayInterface.data, bind_apply, spiWrite_ok, h, updateFrameTrace,
        List.append_assoc]

theorem display_frame_run (s : EpdState) (h : s.failAt = none) :
    display_frame s
      = (Except.ok (), { s with trace := s.trace ++ displayFrameTrace,
                                writesDone := s.writesDone + 2 }) := by
  simp [display_frame, wait_until_idle, DisplayInterface.cmd,
        DisplayInterface.wait_until_idle, bind_apply, spiWrite_ok, h,
        displayFrameTrace, waitTrace, List.append_assoc]

theorem update_and_display_frame_run (buffer : List Nat) (s : EpdState) (h : s.failAt = none) :
    update_and_display_frame buffer s
      = (Except.ok (), { s with trace := s.trace ++ updateFrameTrace buffer ++ displayFrameTrace,
                                writesDone := s.writesDone + 4 }) := by
  have h2 : ({ s with trace := s.trace ++ updateFrameTrace buffer, writesDone := s.writesDone + 2 } : EpdState).failAt = none := h
  simp [update_and_display_frame, bind_apply, update_frame_run buffer s h,
        display_frame_run _ h2, List.append_assoc]

theorem update_partial_frame_run (buffer : List Nat) (x y width height : Nat)
    (s : EpdState) (h : s.failAt = none) :
    update_partial_frame buffer x y width height s
      = (Except.ok (), { s with trace := s.trace ++ updatePartialTrace buffer x y width height,
                                writesDone := s.writesDone + 12 }) := by
  simp [update_partial_frame, wait_until_idle, DisplayInterface.cmd,
        DisplayInterface.data, DisplayInterface.wait_until_idle, bind_apply, spiWrite_ok, h,
        updatePartialTrace, partialHeader, waitTrace, List.append_assoc]

theorem display_partial_frame_run (x y width height : Nat)
    (s : EpdState) (h : s.failAt = none) :
    display_partial_frame x y width height s
      = (Except.ok (), { s with trace := s.trace ++ displayPartialTrace x y width height,
                                writesDone := s.writesDone + 10 }) := by
  simp [display_partial_frame, wait_until_idle, DisplayInterface.cmd,
        DisplayInterface.data, DisplayInterface.wait_until_idle, bind_apply, spiWrite_ok, h,
        displayPartialTrace, partialHeader, waitTrace, List.append_assoc]

theorem and_f8_lt (x : Nat) : x &&& 0xf8 < 256 :=
  lt_of_le_of_lt Nat.and_le_right (by norm_num)

theorem and_f8_mod256 (x : Nat) : (x &&& 0xf8) % 256 = x &&& 0xf8 :=
  Nat.mod_eq_of_lt (and_f8_lt x)

theorem and_f8_mod8 (x : Nat) : (x &&& 0xf8) % 8 = 0 := by
  have h := Nat.and_pow_two_sub_one_eq_mod (x &&& 0xf8) 3
  norm_num at h
  rw [← h, Nat.and_assoc]
  have h2 : (248 : Nat) &&& 7 = 0 := by decide
  rw [h2, Nat.and_zero]

theorem and_ff_eq_mod (y : Nat) : y &&& 0xff = y % 256 := by
  have h := Nat.and_pow_two_sub_one_eq_mod y 8
  norm_num at h
  exact h

theorem and_ff_mod256 (y : Nat) : (y &&& 0xff) % 256 = y &&& 0xff := by
  rw [and_ff_eq_mod]
  omega

theorem dataBytes_append (a b : List BusEvent) :
    dataBytes (a ++ b) = dataBytes a ++ dataBytes b := by
  simp [dataBytes]

theorem dataBytes_replicate (n v : Nat) :
    dataBytes (List.replicate n (BusEvent.data v)) = List.replicate n v := by
  induction n with
  | zero => rfl
  | succ n ih => simp [dataBytes, List.replicate_succ, dataByteOf] at ih ⊢

theorem dataBytes_map_data (l : List Nat) : dataBytes (l.map BusEvent.data) = l := by
  induction l with
  | nil => rfl
  | cons b l ih => simp [dataBytes, dataByteOf] at ih ⊢; exact ih

theorem cmds_append (a b : List BusEvent) : cmds (a ++ b) = cmds a ++ cmds b := by
  simp [cmds]

theorem cmds_map_data (l : List Nat) : cmds (l.map BusEvent.data) = [] := by
  induction l with
  | nil => rfl
  | cons b l ih => simp [cmds, cmdOf] at ih ⊢

theorem cmds_replicate_data (n v : Nat) :
    cmds (List.replicate n (BusEvent.data v)) = [] := by
  induction n with
  | zero => rfl
  | succ n ih => simp [cmds, List.replicate_succ, cmdOf] at ih ⊢

theorem clear_frame_run (s : EpdState) (h : s.failAt = none) :
    clear_frame s
      = (Except.ok (), { s with trace := s.trace ++ clearTrace s.color.get_byte_value,
                                writesDone := s.writesDone + 4 }) := by
  simp [clear_frame, background_color, DisplayInterface.cmd, DisplayInterface.data_x_times,
        bind_apply, spiWrite_ok, h, clearTrace, List.append_assoc]

theorem goodPolls_cmd_cons (c : Command) (rest : List BusEvent) :
    goodPolls (BusEvent.command c :: rest) = goodPollsFrom (BusEvent.command c) rest := rfl

theorem goodPollsFrom_data_cons (b : Nat) (prev : BusEvent) (rest : List BusEvent) :
    goodPollsFrom prev (BusEvent.data b :: rest) = goodPollsFrom (BusEvent.data b) rest := by
  simp [goodPollsFrom]

theorem goodPollsFrom_cmd_cons (c : Command) (prev : BusEvent) (rest : List BusEvent) :
    goodPollsFrom prev (BusEvent.command c :: rest)
      = goodPollsFrom (BusEvent.command c) rest := by
  simp [goodPollsFrom]

theorem cmds_dr_poll :
    cmds [BusEvent.command Command.DisplayRefresh, BusEvent.busyPoll]
      = [Command.DisplayRefresh] := rfl

theorem goodPollsFrom_tail_dr (q : BusEvent) :
    goodPollsFrom q [BusEvent.command Command.DisplayRefresh,
                     BusEvent.command Command.GetStatus, BusEvent.busyPoll] = true := by
  simp [goodPollsFrom]

theorem goodPollsFrom_data_append (bs : List Nat) (tail : List BusEvent)
    (htail : ∀ q : BusEvent, goodPollsFrom q tail = true) :
    ∀ p : BusEvent, goodPollsFrom p (bs.map BusEvent.data ++ tail) = true := by
  induction bs with
  | nil => intro p; simpa using htail p
  | cons b bs ih => intro p; simp [goodPollsFrom, ih]

theorem pollBusy_first_ready (samples : List Bool) (h : false ∈ samples) :
    pollBusy samples = some (samples.takeWhile (· = true)).length := by
  induction samples with
  | nil => simp at h
  | cons b rest ih =>
    cases b with
    | false => simp [pollBusy, List.takeWhile]
    | true =>
      have hr : false ∈ rest := by simpa using h
      simp [pollBusy, List.takeWhile, ih hr]

theorem pc_bind {α β : Type} {x : M α} {f : α → M β}
    (hx : preservesColor x) (hf : ∀ a, preservesColor (f a)) :
    preservesColor (x >>= f) := by
  intro s
  have hx1 := hx s
  rw [bind_apply]
  rcases hxx : x s with ⟨r, s1⟩
  rw [hxx] at hx1
  cases r with
  | ok a => exact (hf a s1).trans hx1
  | error e => exact hx1

theorem pc_spiWrite (evs : List BusEvent) : preservesColor (spiWrite evs) := by
  intro s
  simp only [spiWrite]
  split <;> rfl

theorem pc_cmd (c : Command) : preservesColor (DisplayInterface.cmd c) :=
  pc_spiWrite _

theorem pc_data (bytes : List Nat) : preservesColor (DisplayInterface.data bytes) :=
  pc_spiWrite _

theorem pc_cmd_with_data (c : Command) (bytes : List Nat) :
    preservesColor (DisplayInterface.cmd_with_data c bytes) :=
  pc_bind (pc_cmd c) (fun _ => pc_data bytes)

theorem pc_data_x_times (val n : Nat) : preservesColor (DisplayInterface.data_x_times val n) :=
  pc_spiWrite _

theorem pc_reset (d : Nat) : preservesColor (DisplayInterface.reset d) := by
  intro s; rfl

theorem pc_iface_wait (b : Bool) : preservesColor (DisplayInterface.wait_until_idle b) := by
  intro s; rfl

theorem pc_iface_is_busy (b : Bool) : preservesColor (DisplayInterface.is_busy b) := by
  intro s; rfl

theorem pc_background_color : preservesColor background_color := by
  intro s; rfl

theorem pc_wait_until_idle : preservesColor wait_until_idle :=
  pc_bind (pc_cmd _) (fun _ => pc_iface_wait _)

theorem pc_set_lut (r : Option RefreshLut) : preservesColor (set_lut r) := by
  unfold set_lut
  repeat'
    first
    | exact pc_cmd_with_data _ _
    | apply pc_bind
    | intro a

theorem pc_init : preservesColor init := by
  unfold init
  repeat'
    first
    | exact pc_cmd_with_data _ _
    | exact pc_cmd _
    | exact pc_reset _
    | exact pc_wait_until_idle
    | exact pc_set_lut _
    | apply pc_bind
    | intro a

theorem pc_wake_up : preservesColor wake_up := pc_init

theorem pc_sleep : preservesColor sleep := by
  unfold sleep
  repeat'
    first
    | exact pc_cmd_with_data _ _
    | exact pc_cmd _
    | exact pc_wait_until_idle
    | apply pc_bind
    | intro a

theorem pc_update_frame (buffer : List Nat) : preservesColor (update_frame buffer) :=
  pc_cmd_with_data _ _

theorem pc_update_partial_frame (buffer : List Nat) (x y w h : Nat) :
    preservesColor (update_partial_frame buffer x y w h) := by
  unfold update_partial_frame
  repeat'
    first
    | exact pc_cmd _
    | exact pc_data _
    | exact pc_wait_until_idle
    | apply pc_bind
    | intro a

theorem pc_display_frame : preservesColor display_frame := by
  unfold display_frame
  repeat'
    first
    | exact pc_cmd _
    | exact pc_wait_until_idle
    | apply pc_bind
    | intro a

theorem pc_display_partial_frame (x y w h : Nat) :
    preservesColor (display_partial_frame x y w h) := by
  unfold display_partial_frame
  repeat'
    first
    | exact pc_cmd _
    | exact pc_data _
    | exact pc_wait_until_idle
    | apply pc_bind
    | intro a

theorem pc_update_and_display_frame (buffer : List Nat) :
    preservesColor (update_and_display_frame buffer) :=
  pc_bind (pc_update_frame buffer) (fun _ => pc_display_frame)

theorem pc_clear_frame : preservesColor clear_frame := by
  unfold clear_frame
  repeat'
    first
    | exact pc_cmd _
    | exact pc_data_x_times _ _
    | exact pc_background_color
    | apply pc_bind
    | intro a

theorem pc_is_busy : preservesColor is_busy := pc_iface_is_busy _

theorem dataBytes_cmd (c : Command) : dataBytes [BusEvent.command c] = [] := rfl

theorem cmds_cmd (c : Command) : cmds [BusEvent.command c] = [c] := rfl

theorem clearTrace_size : WIDTH * HEIGHT / 8 = 5808 := by norm_num [WIDTH, HEIGHT]

theorem clearTrace_props (v : Nat) :
    dataBytes (clearTrace v) = List.replicate 5808 v ++ List.replicate 5808 v
    ∧ BusEvent.command Command.DisplayRefresh ∉ clearTrace v
    ∧ cmds (clearTrace v)
        = [Command.DataStartTransmission1, Command.DataStartTransmission2] := by
  refine ⟨?_, ?_, ?_⟩
  · rw [clearTrace, clearTrace_size]
    simp only [dataBytes_append, dataBytes_replicate, dataBytes_cmd,
               List.nil_append, List.append_nil]
  · rw [clearTrace]
    simp only [List.mem_append, List.mem_replicate, List.mem_singleton]
    intro hmem
    rcases hmem with ((h1 | h2) | h3) | h4 <;> simp_all
  · rw [clearTrace, clearTrace_size]
    simp only [cmds_append, cmds_replicate_data, cmds_cmd,
               List.nil_append, List.append_nil]
    rfl

/-- C2: init (and therefore construction through new) asserts the hardware reset
before any command byte is sent — the first event of its exactly-determined
stream initTrace is the reset pulse — and emits the fixed ordered command
sequence: power setting, booster soft-start, the seven power-optimization
command+data pairs with payloads 0x60 0xa5, 0x89 0xa5, 0x90 0x00, 0x93 0x2a,
0xA0 0xA5, 0xA1 0x00, 0x73 0x41, the partial-display-refresh disable byte,
power-on followed by a busy-wait, panel setting, PLL control, VCOM DC setting,
and only then the five LUT writes, so LUT programming never precedes
panel-setting and PLL-control programming. -/
theorem C2_init_sequence (s : EpdState) (h : s.failAt = none) :
    init s = (Except.ok (), { s with trace := s.trace ++ initTrace,
                                     writesDone := s.writesDone + 38 })
    ∧ (new s).2.trace = s.trace ++ initTrace
    ∧ initTrace.head? = some (BusEvent.resetPulse 2) := by
  refine ⟨init_run s h, ?_, by rfl⟩
  rw [new_run s h]

theorem C2_init_sequence_witness :
    init s0 = (Except.ok (), { s0 with trace := s0.trace ++ initTrace,
                                       writesDone := s0.writesDone + 38 })
    ∧ (new s0).2.trace = s0.trace ++ initTrace
    ∧ initTrace.head? = some (BusEvent.resetPulse 2) :=
  C2_init_sequence s0 rfl

/-- C7: sleep performs, in this order, a busy-wait (GetStatus then poll),
programming of the VCOM-and-data-interval setting to the sleep value 0xf7, the
power-off command, a second busy-wait, and finally the deep-sleep command with
the fixed one-byte payload 0xA5; its exactly-determined stream sleepTrace
contains no other command bytes. -/
theorem C7_sleep_sequence (s : EpdState) (h : s.failAt = none) :
    sleep s = (Except.ok (), { s with trace := s.trace ++ sleepTrace,
                                      writesDone := s.writesDone + 7 })
    ∧ cmds sleepTrace = [Command.GetStatus, Command.VcomAndDataIntervalSetting,
                         Command.PowerOff, Command.GetStatus, Command.DeepSleep]
    ∧ dataBytes sleepTrace = [0xf7, 0xA5] := by
  exact ⟨sleep_run s h, by rfl, by rfl⟩

theorem C7_sleep_sequence_witness :
    sleep s0 = (Except.ok (), { s0 with trace := s0.trace ++ sleepTrace,
                                        writesDone := s0.writesDone + 7 })
    ∧ cmds sleepTrace = [Command.GetStatus, Command.VcomAndDataIntervalSetting,
                         Command.PowerOff, Command.GetStatus, Command.DeepSleep]
    ∧ dataBytes sleepTrace = [0xf7, 0xA5] :=
  C7_sleep_sequence s0 rfl

/-- C8: for any two values of the refresh-rate selector argument (including none),
set_lut emits exactly the same byte stream lutTrace, the five fixed LUT arrays
written to five distinct command codes; the selector never influences the
output. -/
theorem C8_set_lut_ignores_selector (r1 r2 : Option RefreshLut) (s : EpdState)
    (h : s.failAt = none) :
    set_lut r1 s = set_lut r2 s
    ∧ set_lut r1 s = (Except.ok (), { s with trace := s.trace ++ lutTrace,
                                             writesDone := s.writesDone + 10 })
    ∧ cmds lutTrace = [Command.LutForVcom, Command.LutWhiteToWhite,
                       Command.LutBlackToWhite, Command.LutWhiteToBlack,
                       Command.LutBlackToBlack]
    ∧ (cmds lutTrace).Nodup := by
  exact ⟨rfl, set_lut_run r1 s h, by rfl, by decide⟩

theorem C8_set_lut_ignores_selector_witness :
    set_lut (some RefreshLut.Full) s0 = set_lut (some RefreshLut.Quick) s0
    ∧ set_lut (some RefreshLut.Full) s0
        = (Except.ok (), { s0 with trace := s0.trace ++ lutTrace,
                                   writesDone := s0.writesDone + 10 })
    ∧ cmds lutTrace = [Command.LutForVcom, Command.LutWhiteToWhite,
                       Command.LutBlackToWhite, Command.LutWhiteToBlack,
                       Command.LutBlackToBlack]
    ∧ (cmds lutTrace).Nodup :=
  C8_set_lut_ignores_selector (some RefreshLut.Full) (some RefreshLut.Quick) s0 rfl

/-- C6: wake_up is definitionally init, so it performs the full initialization
byte sequence; two successive wake_up calls re-run that full sequence both
times, appending initTrace twice with no skip-if-already-initialized shortcut,
and leave the cached controller state (the background color) unchanged. -/
theorem C6_wake_up_reruns_init (s : EpdState) (h : s.failAt = none) :
    wake_up = init
    ∧ wake_up_twice s = (Except.ok (), { s with trace := s.trace ++ initTrace ++ initTrace,
                                                writesDone := s.writesDone + 76 })
    ∧ ((wake_up_twice s).2).color = s.color := by
  refine ⟨rfl, wake_up_twice_run s h, ?_⟩
  rw [wake_up_twice_run s h]

theorem C6_wake_up_reruns_init_witness :
    wake_up = init
    ∧ wake_up_twice s0 = (Except.ok (), { s0 with trace := s0.trace ++ initTrace ++ initTrace,
                                                  writesDone := s0.writesDone + 76 })
    ∧ ((wake_up_twice s0).2).color = s0.color :=
  C6_wake_up_reruns_init s0 rfl

/-- C5: for every background-color value held by the controller, clear_frame
writes 5808 data bytes to each of the two transmission channels, each preceded
by that channel's data-start-transmission command, 2 times 5808 = 11616 data
bytes in total, every one equal to the color's encoded byte value; the stream
contains exactly the two data-start-transmission commands and in particular no
display-refresh command. -/
theorem C5_clear_frame (s : EpdState) (h : s.failAt = none) :
    clear_frame s
      = (Except.ok (), { s with trace := s.trace ++ clearTrace s.color.get_byte_value,
                                writesDone := s.writesDone + 4 })
    ∧ (dataBytes (clearTrace s.color.get_byte_value)).length = 2 * 5808
    ∧ (∀ b ∈ dataBytes (clearTrace s.color.get_byte_value), b = s.color.get_byte_value)
    ∧ BusEvent.command Command.DisplayRefresh ∉ clearTrace s.color.get_byte_value
    ∧ cmds (clearTrace s.color.get_byte_value)
        = [Command.DataStartTransmission1, Command.DataStartTransmission2] := by
  obtain ⟨hdb, hnr, hcs⟩ := clearTrace_props s.color.get_byte_value
  refine ⟨clear_frame_run s h, ?_, ?_, hnr, hcs⟩
  · rw [hdb]
    simp only [List.length_append, List.length_replicate]
  · intro b hb
    rw [hdb] at hb
    simp only [List.mem_append, List.mem_replicate] at hb
    rcases hb with h1 | h2
    · exact h1.2
    · exact h2.2

theorem C5_clear_frame_witness :
    clear_frame s0
      = (Except.ok (), { s0 with trace := s0.trace ++ clearTrace s0.color.get_byte_value,
                                 writesDone := s0.writesDone + 4 })
    ∧ (dataBytes (clearTrace s0.color.get_byte_value)).length = 2 * 5808
    ∧ (∀ b ∈ dataBytes (clearTrace s0.color.get_byte_value), b = s0.color.get_byte_value)
    ∧ BusEvent.command Command.DisplayRefresh ∉ clearTrace s0.color.get_byte_value
    ∧ cmds (clearTrace s0.color.get_byte_value)
        = [Command.DataStartTransmission1, Command.DataStartTransmission2] :=
  C5_clear_frame s0 rfl

/-- C3: for all coordinates, both update_partial_frame and display_partial_frame
emit the 8-byte geometry header x high byte, x masked with 0xF8, y high byte,
y low byte, width high byte, width masked with 0xF8, height high byte, height
low byte (each emitted through the u8 cast, i.e. mod 256): x and width are
masked to a multiple of 8 in their low byte while y and height are only
truncated, not masked. -/
theorem C3_partial_geometry_header (buffer : List Nat) (x y width height : Nat)
    (s : EpdState) (hfail : s.failAt = none) :
    update_partial_frame buffer x y width height s
      = (Except.ok (), { s with trace := s.trace ++ updatePartialTrace buffer x y width height,
                                writesDone := s.writesDone + 12 })
    ∧ display_partial_frame x y width height s
      = (Except.ok (), { s with trace := s.trace ++ displayPartialTrace x y width height,
                                writesDone := s.writesDone + 10 })
    ∧ partialHeader x y width height
        = [(x >>> 8) % 256, x &&& 0xf8, (y >>> 8) % 256, y &&& 0xff,
           (width >>> 8) % 256, width &&& 0xf8, (height >>> 8) % 256, height &&& 0xff]
    ∧ (x &&& 0xf8) % 8 = 0
    ∧ (width &&& 0xf8) % 8 = 0
    ∧ y &&& 0xff = y % 256
    ∧ height &&& 0xff = height % 256 := by
  refine ⟨update_partial_frame_run buffer x y width height s hfail,
          display_partial_frame_run x y width height s hfail, ?_,
          and_f8_mod8 x, and_f8_mod8 width, and_ff_eq_mod y, and_ff_eq_mod height⟩
  simp only [partialHeader, and_f8_mod256, and_ff_mod256]

theorem C3_partial_geometry_header_witness :
    update_partial_frame [0xAB] 8 3 16 2 s0
      = (Except.ok (), { s0 with trace := s0.trace ++ updatePartialTrace [0xAB] 8 3 16 2,
                                 writesDone := s0.writesDone + 12 })
    ∧ display_partial_frame 8 3 16 2 s0
      = (Except.ok (), { s0 with trace := s0.trace ++ displayPartialTrace 8 3 16 2,
                                 writesDone := s0.writesDone + 10 })
    ∧ partialHeader 8 3 16 2
        = [(8 >>> 8) % 256, 8 &&& 0xf8, (3 >>> 8) % 256, 3 &&& 0xff,
           (16 >>> 8) % 256, 16 &&& 0xf8, (2 >>> 8) % 256, 2 &&& 0xff]
    ∧ (8 &&& 0xf8) % 8 = 0
    ∧ (16 &&& 0xf8) % 8 = 0
    ∧ 3 &&& 0xff = 3 % 256
    ∧ 2 &&& 0xff = 2 % 256 :=
  C3_partial_geometry_header [0xAB] 8 3 16 2 s0 rfl

/-- C4: update_partial_frame and display_partial_frame emit different command-byte
sequences for the same geometry: update_partial_frame issues
partial-data-start-transmission-1, then after the geometry header and payload a
display-refresh command, whereas display_partial_frame issues the
partial-display-refresh command and emits no payload beyond the 8 geometry
bytes. -/
theorem C4_distinct_command_paths (buffer : List Nat) (x y width height : Nat)
    (s : EpdState) (hfail : s.failAt = none) :
    (update_partial_frame buffer x y width height s).2.trace
      = s.trace ++ updatePartialTrace buffer x y width height
    ∧ (display_partial_frame x y width height s).2.trace
      = s.trace ++ displayPartialTrace x y width height
    ∧ cmds (updatePartialTrace buffer x y width height)
        = [Command.PartialDataStartTransmission1, Command.DisplayRefresh, Command.GetStatus]
    ∧ cmds (displayPartialTrace x y width height)
        = [Command.PartialDisplayRefresh, Command.GetStatus]
    ∧ cmds (updatePartialTrace buffer x y width height)
        ≠ cmds (displayPartialTrace x y width height)
    ∧ dataBytes (displayPartialTrace x y width height) = partialHeader x y width height := by
  have hu : cmds (updatePartialTrace buffer x y width height)
      = [Command.PartialDataStartTransmission1, Command.DisplayRefresh, Command.GetStatus] := by
    simp only [updatePartialTrace, waitTrace, cmds_append, cmds_map_data, cmds_cmd]
    rfl
  have hd : cmds (displayPartialTrace x y width height)
      = [Command.PartialDisplayRefresh, Command.GetStatus] := by
    simp only [displayPartialTrace, waitTrace, cmds_append, cmds_map_data, cmds_cmd]
    rfl
  refine ⟨?_, ?_, hu, hd, ?_, ?_⟩
  · rw [update_partial_frame_run buffer x y width height s hfail]
  · rw [display_partial_frame_run x y width height s hfail]
  · rw [hu, hd]
    simp
  · simp only [displayPartialTrace, waitTrace, dataBytes_append, dataBytes_map_data,
               dataBytes_cmd, List.nil_append, List.append_nil]
    rfl

theorem C4_distinct_command_paths_witness :
    (update_partial_frame [] 0 0 0 0 s0).2.trace = s0.trace ++ updatePartialTrace [] 0 0 0 0
    ∧ (display_partial_frame 0 0 0 0 s0).2.trace = s0.trace ++ displayPartialTrace 0 0 0 0
    ∧ cmds (updatePartialTrace [] 0 0 0 0)
        = [Command.PartialDataStartTransmission1, Command.DisplayRefresh, Command.GetStatus]
    ∧ cmds (displayPartialTrace 0 0 0 0) = [Command.PartialDisplayRefresh, Command.GetStatus]
    ∧ cmds (updatePartialTrace [] 0 0 0 0) ≠ cmds (displayPartialTrace 0 0 0 0)
    ∧ dataBytes (displayPartialTrace 0 0 0 0) = partialHeader 0 0 0 0 :=
  C4_distinct_command_paths [] 0 0 0 0 s0 rfl

/-- C1 is false as stated: on the all-zero 5808-byte buffer, the stream emitted by
update_and_display_frame is not just the data-start-transmission-2 command, the
5808 data bytes, the display-refresh command and a busy-poll — the controller's
wait_until_idle also transmits the GetStatus command byte after display-refresh
and before the poll, so the command bytes on the bus are DataStartTransmission2,
DisplayRefresh, GetStatus rather than only the first two. -/
theorem C1_counterexample :
    (update_and_display_frame buf0 s0).2.trace
        ≠ [BusEvent.command Command.DataStartTransmission2] ++ buf0.map BusEvent.data
          ++ [BusEvent.command Command.DisplayRefresh, BusEvent.busyPoll]
    ∧ cmds ((update_and_display_frame buf0 s0).2.trace)
        ≠ [Command.DataStartTransmission2, Command.DisplayRefresh] := by
  have hrun := update_and_display_frame_run buf0 s0 rfl
  have htr : (update_and_display_frame buf0 s0).2.trace
      = updateFrameTrace buf0 ++ displayFrameTrace := by
    rw [hrun]
    show s0.trace ++ updateFrameTrace buf0 ++ displayFrameTrace
      = updateFrameTrace buf0 ++ displayFrameTrace
    rfl
  have hcmds : cmds ((update_and_display_frame buf0 s0).2.trace)
      = [Command.DataStartTransmission2, Command.DisplayRefresh, Command.GetStatus] := by
    rw [htr]
    simp only [updateFrameTrace, displayFrameTrace, waitTrace, cmds_append,
               cmds_map_data, cmds_cmd, List.nil_append, List.append_nil]
    rfl
  have hclaimed : cmds ([BusEvent.command Command.DataStartTransmission2]
        ++ buf0.map BusEvent.data
        ++ [BusEvent.command Command.DisplayRefresh, BusEvent.busyPoll])
      = [Command.DataStartTransmission2, Command.DisplayRefresh] := by
    simp only [cmds_append, cmds_map_data, cmds_cmd, cmds_dr_poll,
               List.nil_append, List.append_nil]
    rfl
  constructor
  · intro hEq
    have h2 := congrArg cmds hEq
    rw [hcmds, hclaimed] at h2
    simp at h2
  · intro hEq
    rw [hcmds] at hEq
    simp at hEq

/-- C1 (amended): for every buffer of length 5808, update_and_display_frame emits
over the bus exactly the data-start-transmission-2 command byte, the 5808 bytes
of the buffer as data, the display-refresh command byte, and then the GetStatus
command byte of the controller's busy-wait followed by the busy-poll, which
terminates exactly at the first busy-line sample that reports ready; no other
bytes are interleaved in that stream. -/
theorem C1_update_and_display_stream (buffer : List Nat) (hlen : buffer.length = 5808)
    (s : EpdState) (hfail : s.failAt = none) :
    update_and_display_frame buffer s
      = (Except.ok (), { s with
          trace := s.trace ++ [BusEvent.command Command.DataStartTransmission2]
                   ++ buffer.map BusEvent.data
                   ++ [BusEvent.command Command.DisplayRefresh,
                       BusEvent.command Command.GetStatus, BusEvent.busyPoll],
          writesDone := s.writesDone + 4 })
    ∧ (buffer.map BusEvent.data).length = 5808
    ∧ (∀ samples : List Bool, false ∈ samples →
        pollBusy samples = some (samples.takeWhile (· = true)).length) := by
  refine ⟨?_, by simp [hlen], fun samples hs => pollBusy_first_ready samples hs⟩
  have hrun := update_and_display_frame_run buffer s hfail
  simpa only [updateFrameTrace, displayFrameTrace, waitTrace, List.append_assoc,
              List.cons_append, List.nil_append] using hrun

theorem C1_update_and_display_stream_witness :
    update_and_display_frame buf0 s0
      = (Except.ok (), { s0 with
          trace := s0.trace ++ [BusEvent.command Command.DataStartTransmission2]
                   ++ buf0.map BusEvent.data
                   ++ [BusEvent.command Command.DisplayRefresh,
                       BusEvent.command Command.GetStatus, BusEvent.busyPoll],
          writesDone := s0.writesDone + 4 })
    ∧ (buf0.map BusEvent.data).length = 5808
    ∧ (∀ samples : List Bool, false ∈ samples →
        pollBusy samples = some (samples.takeWhile (· = true)).length) :=
  C1_update_and_display_stream buf0 (by rw [buf0, List.length_replicate]) s0 rfl

/-- C9: every busy-wait synchronization point of the controller (in init after
power-on, in sleep, in display_frame, in update_partial_frame and in
display_partial_frame) first transmits the GetStatus command byte and only then
polls the busy line, so in every emitted stream each busy-poll is immediately
preceded by a GetStatus command byte. -/
theorem C9_get_status_before_every_poll :
    goodPolls ((init s0).2.trace) = true
    ∧ goodPolls ((sleep s0).2.trace) = true
    ∧ goodPolls ((display_frame s0).2.trace) = true
    ∧ (∀ (buffer : List Nat) (x y width height : Nat),
        goodPolls ((update_partial_frame buffer x y width height s0).2.trace) = true)
    ∧ (∀ x y width height : Nat,
        goodPolls ((display_partial_frame x y width height s0).2.trace) = true) := by
  refine ⟨?_, ?_, ?_, ?_, ?_⟩
  · rw [init_run s0 rfl]
    decide
  · rw [sleep_run s0 rfl]
    decide
  · rw [display_frame_run s0 rfl]
    decide
  · intro buffer x y width height
    rw [update_partial_frame_run buffer x y width height s0 rfl]
    show goodPolls (s0.trace ++ updatePartialTrace buffer x y width height) = true
    simp only [updatePartialTrace, partialHeader, waitTrace,
               List.map_cons, List.map_nil, List.cons_append, List.nil_append,
               List.append_assoc, goodPolls_cmd_cons, goodPollsFrom_data_cons,
               goodPollsFrom_cmd_cons]
    exact goodPollsFrom_data_append buffer _ goodPollsFrom_tail_dr _
  · intro x y width height
    rw [display_partial_frame_run x y width height s0 rfl]
    show goodPolls (s0.trace ++ displayPartialTrace x y width height) = true
    simp only [displayPartialTrace, partialHeader, waitTrace,
               List.map_cons, List.map_nil, List.cons_append, List.nil_append,
               List.append_assoc, goodPolls_cmd_cons, goodPollsFrom_data_cons,
               goodPollsFrom_cmd_cons]
    rfl

/-- C10: the controller's only mutable state is the cached background-color field:
it equals the default White after construction through new, it is changed only
by set_background_color, and init, wake_up, sleep, clear_frame, update_frame,
update_partial_frame, display_frame, display_partial_frame,
update_and_display_frame, set_lut and is_busy leave it unchanged on every state,
both when they succeed and when they stop with a bus error. -/
theorem C10_color_is_only_state :
    preservesColor init
    ∧ preservesColor wake_up
    ∧ preservesColor sleep
    ∧ preservesColor clear_frame
    ∧ (∀ buffer : List Nat, preservesColor (update_frame buffer))
    ∧ (∀ (buffer : List Nat) (x y width height : Nat),
        preservesColor (update_partial_frame buffer x y width height))
    ∧ preservesColor display_frame
    ∧ (∀ x y width height : Nat, preservesColor (display_partial_frame x y width height))
    ∧ (∀ buffer : List Nat, preservesColor (update_and_display_frame buffer))
    ∧ (∀ r : Option RefreshLut, preservesColor (set_lut r))
    ∧ preservesColor is_busy
    ∧ (∀ s : EpdState, (is_busy s).2 = s)
    ∧ (∀ (s : EpdState) (c : Color), ((set_background_color c s).2).color = c)
    ∧ (∀ s : EpdState, ((new s).2).color = DEFAULT_BACKGROUND_COLOR) :=
  ⟨pc_init, pc_wake_up, pc_sleep, pc_clear_frame,
   fun buffer => pc_update_frame buffer,
   fun buffer x y width height => pc_update_partial_frame buffer x y width height,
   pc_display_frame,
   fun x y width height => pc_display_partial_frame x y width height,
   fun buffer => pc_update_and_display_frame buffer,
   fun r => pc_set_lut r,
   pc_is_busy,
   fun _ => rfl,
   fun _ _ => rfl,
   fun s => pc_init { s with color := DEFAULT_BACKGROUND_COLOR }⟩

end Epd2in7
